import Mathlib

/-!
Verification of the capture-engine core of the `visualizer` repository
(`src/CircularBuffer.cpp`, `include/CircularBuffer.h`, `src/visualizer.cpp`)
against its natural-language specification.

The C++ sources are translated below as a shallow embedding:

* `CircularBuffer` mirrors the fields of the class: the byte array `buffer`
  (dimensioned by the compile-time macro `BUF_SIZE`), the producer index `i`
  (an `unsigned char`, hence arithmetic modulo 256), the occupancy counter
  `size` used by `clear`/`full`, and the `capacity` field used by `write`'s
  wrap test.  Stored values are bytes, so writes truncate modulo 256.
* `VisState` mirrors the globals of `visualizer.cpp`: the two rings `ping`
  and `pong`, the two aliases `capt_buf`/`proc_buf` (each points at one of
  the rings), and the handoff flag `processing`.
* `ISR_ADC` is the conversion-complete interrupt handler, `visSetup` the
  `setup()` routine, and `loopStep` the effect of one `loop()` iteration on
  the shared core state.
* The compile-time `#if` chains of `visualizer.cpp` (width selection,
  storage width, register read order) are embedded as functions of the
  tested macro's value, and `init_analog`/`init_adc`/`setup` additionally
  as a trace of hardware-configuration events so that ordering can be
  stated.
-/

namespace Visualizer

/-- The `CircularBuffer` class.  `buffer` is the storage array
(`unsigned char buffer[BUF_SIZE]` in the header), `i` the producer index
(`unsigned char`), `size` the occupancy counter written by the constructor
and `clear` and read by `full`, and `capacity` the capacity field used by
`write`'s wrap test. -/
structure CircularBuffer where
  buffer : List Nat
  i : Nat
  size : Nat
  capacity : Nat
deriving DecidableEq, Repr

namespace CircularBuffer

/-- Construction: the header declares `CircularBuffer(size_t capacity)`;
the definition zero-initializes the storage (`this.buffer = {0}` over the
`BUF_SIZE`-element array) and sets `i = 0`, `size = 0`. -/
def construct (BUF_SIZE capacity : Nat) : CircularBuffer :=
  { buffer := List.replicate BUF_SIZE 0
    i := 0
    size := 0
    capacity := capacity }

/-- `CircularBuffer::write`: stores `data` at `buffer[i]` (byte storage, so
modulo 256), then `if (++this.i >= this.capacity) this.i = 0;`.  The index
is an `unsigned char`, so the increment itself is modulo 256.  Note the
source updates no other field: in particular `size` is untouched. -/
def write (b : CircularBuffer) (data : Nat) : CircularBuffer :=
  let incremented := (b.i + 1) % 256
  { b with
    buffer := b.buffer.set b.i (data % 256)
    i := if incremented ≥ b.capacity then 0 else incremented }

/-- `CircularBuffer::clear`: `this.size = 0;` and nothing else. -/
def clear (b : CircularBuffer) : CircularBuffer :=
  { b with size := 0 }

/-- `CircularBuffer::full`: `return this.size >= BUF_SIZE;` — the comparison
is against the compile-time macro `BUF_SIZE`, not the `capacity` field. -/
def full (b : CircularBuffer) (BUF_SIZE : Nat) : Bool :=
  decide (b.size ≥ BUF_SIZE)

/-- A sequence of `write` calls, oldest first. -/
def writeSeq (b : CircularBuffer) (xs : List Nat) : CircularBuffer :=
  xs.foldl write b

end CircularBuffer

/-- The two ring instances of `visualizer.cpp` are the globals `ping` and
`pong`; the aliases `capt_buf` and `proc_buf` each point at one of them. -/
inductive Ref where
  | ping
  | pong
deriving DecidableEq, Repr

/-- The shared core state of `visualizer.cpp`: the two rings, the two role
aliases, and the handoff flag (named `processing` in the source, `busy` in
the spec). -/
structure VisState where
  ping : CircularBuffer
  pong : CircularBuffer
  capt_buf : Ref
  proc_buf : Ref
  processing : Bool
deriving DecidableEq, Repr

/-- Dereference a ring alias. -/
def VisState.get (s : VisState) : Ref → CircularBuffer
  | .ping => s.ping
  | .pong => s.pong

/-- Store through a ring alias. -/
def VisState.setRing (s : VisState) : Ref → CircularBuffer → VisState
  | .ping, b => { s with ping := b }
  | .pong, b => { s with pong := b }

/-- `ISR(ADC_vect)` from `visualizer.cpp`: read the conversion result
(modelled as the parameter `sample`) and `capt_buf->write(...)` it; then,
if `!processing && capt_buf->full()`, set `processing = true` and swap
`capt_buf` with `proc_buf` (via the temporary, as in the source).
`BUF_SIZE` is the macro read by `CircularBuffer::full`. -/
def ISR_ADC (BUF_SIZE sample : Nat) (s : VisState) : VisState :=
  let s1 := s.setRing s.capt_buf ((s.get s.capt_buf).write sample)
  if !s1.processing && (s1.get s1.capt_buf).full BUF_SIZE then
    { s1 with
      processing := true
      proc_buf := s1.capt_buf
      capt_buf := s1.proc_buf }
  else
    s1

/-- A sequence of conversion-complete interrupts, oldest sample first. -/
def isrSeq (BUF_SIZE : Nat) (samples : List Nat) (s : VisState) : VisState :=
  samples.foldl (fun t x => ISR_ADC BUF_SIZE x t) s

/-- `setup()` from `visualizer.cpp`: `init_analog()`/`init_adc()` touch only
hardware registers; the shared core state is `capt_buf = &ping`,
`proc_buf = &pong`, `processing = false`, with both rings constructed from
the `BUFF_SIZE` macro (`ping(BUFF_SIZE)`, `pong(BUFF_SIZE)`). -/
def visSetup (BUF_SIZE : Nat) : VisState :=
  { ping := CircularBuffer.construct BUF_SIZE BUF_SIZE
    pong := CircularBuffer.construct BUF_SIZE BUF_SIZE
    capt_buf := .ping
    proc_buf := .pong
    processing := false }

/-- One iteration of `loop()` from `visualizer.cpp`, as it acts on the
shared core state: the body spins on `processing`, then calls
`preprocess`, `fft_input`, `fft_execute`, `fft_output` and `postprocess`,
which are external pipeline stages that read `proc_buf`.  No statement of
the loop body assigns to `processing`, `capt_buf`, `proc_buf` or either
ring — in particular there is no `proc_buf->clear()` and no
`processing = false` — so the core state is returned unchanged. -/
def loopStep (s : VisState) : VisState := s

/-- The core states reachable from `setup()` under interrupt deliveries and
foreground-loop iterations. -/
inductive Reachable (BUF_SIZE : Nat) : VisState → Prop where
  | init : Reachable BUF_SIZE (visSetup BUF_SIZE)
  | isr {s : VisState} (x : Nat) :
      Reachable BUF_SIZE s → Reachable BUF_SIZE (ISR_ADC BUF_SIZE x s)
  | loop {s : VisState} :
      Reachable BUF_SIZE s → Reachable BUF_SIZE (loopStep s)

/-- The `#if`/`#elif` chain of `visualizer.cpp` computing `ADC_BITS` from
the value of the tested macro `ADC_PRESCALAR`; `none` is the `#error`
branch ("Prescalar must be one of {4, 8, 16, 32, 64, 128}."). -/
def adcBitsChain (p : Nat) : Option Nat :=
  if p = 128 then some 9
  else if p = 64 then some 9
  else if p = 32 then some 9
  else if p = 16 then some 8
  else if p = 8 then some 7
  else if p = 4 then some 5
  else none

/-- The macro the source actually defines: `#define ADC_PRESCALER 16`. -/
def ADC_PRESCALER : Nat := 16

/-- The macro the `#if` chain actually tests is spelled `ADC_PRESCALAR`,
which no `#define` in the source introduces; in a preprocessor conditional
an undefined identifier evaluates to 0. -/
def ADC_PRESCALAR : Nat := 0

/-- Storage width in bytes chosen by the `#if ADC_BITS > 8` typedef:
`uint16_t` (2 bytes) when more than 8 bits, else `uint8_t` (1 byte). -/
def bytesPerSample (w : Nat) : Nat := if w > 8 then 2 else 1

/-- Register read order in the ISR: with `ADC_BITS > 8` the 16-bit `ADC`
register is read (low byte `ADCL` first, which latches `ADCH` until it is
read), otherwise only the high byte `ADCH` of the left-justified result. -/
inductive ReadOrder where
  | highOnly
  | lowThenHigh
deriving DecidableEq, Repr

/-- Read order selected by the `#if ADC_BITS > 8` in `ISR(ADC_vect)`. -/
def readOrderOf (w : Nat) : ReadOrder :=
  if w > 8 then .lowThenHigh else .highOnly

/-- Hardware-configuration and core-state events performed during start-up
by `init_analog`, `init_adc` and `setup` in `visualizer.cpp`. -/
inductive InitEvent where
  | didrDisable
  | arefSelect
  | adlarJustify
  | admuxChannel
  | adcEnable
  | adcStartFirst
  | adcIntEnable
  | adcFreeRun
  | adcPrescalerBits
  | assignAliases
  | flagInit
  | seiEnable
deriving DecidableEq, Repr

/-- `init_analog()` statement order: disable the digital input buffers
(`DIDR0` bits), select the reference (`analogReference(EXTERNAL)`), set the
justification (`ADLAR`), select the channel (`ADMUX |= ADC_PIN & 7`). -/
def init_analog_trace : List InitEvent :=
  [.didrDisable, .arefSelect, .adlarJustify, .admuxChannel]

/-- `init_adc()` statement order: enable the converter (`ADEN`), then
**start the first conversion** (`ADSC`), then enable the
conversion-complete interrupt (`ADIE`), select free-run (`ADTS[2:0]`), and
write the prescaler bits (`ADPS`). -/
def init_adc_trace : List InitEvent :=
  [.adcEnable, .adcStartFirst, .adcIntEnable, .adcFreeRun, .adcPrescalerBits]

/-- `setup()` statement order: `init_analog(); init_adc();`, the alias
assignments, `processing = false`, then `sei()`. -/
def setup_trace : List InitEvent :=
  init_analog_trace ++ init_adc_trace ++
    [.assignAliases, .flagInit, .seiEnable]

namespace CircularBuffer

@[simp] theorem write_size (b : CircularBuffer) (x : Nat) :
    (b.write x).size = b.size := rfl

@[simp] theorem write_capacity (b : CircularBuffer) (x : Nat) :
    (b.write x).capacity = b.capacity := rfl

@[simp] theorem writeSeq_nil (b : CircularBuffer) : b.writeSeq [] = b := rfl

@[simp] theorem writeSeq_cons (b : CircularBuffer) (x : Nat) (xs : List Nat) :
    b.writeSeq (x :: xs) = (b.write x).writeSeq xs := rfl

theorem writeSeq_size (b : CircularBuffer) (xs : List Nat) :
    (b.writeSeq xs).size = b.size := by
  induction xs generalizing b with
  | nil => rfl
  | cons x xs ih => simpa using ih (b.write x)

end CircularBuffer

namespace VisState

@[simp] theorem setRing_capt_buf (s : VisState) (r : Ref) (b : CircularBuffer) :
    (s.setRing r b).capt_buf = s.capt_buf := by
  cases r <;> rfl

@[simp] theorem setRing_proc_buf (s : VisState) (r : Ref) (b : CircularBuffer) :
    (s.setRing r b).proc_buf = s.proc_buf := by
  cases r <;> rfl

@[simp] theorem setRing_processing (s : VisState) (r : Ref) (b : CircularBuffer) :
    (s.setRing r b).processing = s.processing := by
  cases r <;> rfl

@[simp] theorem get_setRing_self (s : VisState) (r : Ref) (b : CircularBuffer) :
    (s.setRing r b).get r = b := by
  cases r <;> rfl

theorem get_setRing_other (s : VisState) (r r' : Ref) (b : CircularBuffer)
    (h : r' ≠ r) : (s.setRing r b).get r' = s.get r' := by
  cases r <;> cases r' <;> first | rfl | exact absurd rfl h

end VisState

/-- The role aliases never coincide in any reachable state: `setup()` makes
them distinct and the ISR either leaves them alone or swaps them. -/
theorem reachable_capt_ne_proc {BUF_SIZE : Nat} {s : VisState}
    (h : Reachable BUF_SIZE s) : s.capt_buf ≠ s.proc_buf := by
  induction h with
  | init => exact fun h => by cases h
  | isr x _ ih =>
    simp only [ISR_ADC]
    split
    · simpa using fun h => ih h.symm
    · simpa using ih
  | loop _ ih => exact ih

/-- C1: the claim asserts `write(x)` stores `x` at position `i`, advances
`i` with wrap, **and increments `size` saturating at `N`**.  Evaluating the
source's `write` on a fresh ring of capacity 4 shows the store and the
index advance happen, but `size` stays 0 — the write path never touches
`size` (the spec itself flags this as a bug in the source).  The claim's
"increments size" clause is therefore false of the code. -/
theorem C1_write_leaves_size_zero :
    ((CircularBuffer.construct 4 4).write 10).buffer = [10, 0, 0, 0] ∧
    ((CircularBuffer.construct 4 4).write 10).i = 1 ∧
    ((CircularBuffer.construct 4 4).write 10).size = 0 ∧
    ((CircularBuffer.construct 4 4).write 10).size ≠ 1 := by
  decide

/-- C2: the claim asserts that after `k` writes into a fresh ring of
capacity `N`, `size = min(k, N)` and `full()` holds iff `k ≥ N`.
Evaluating the source on `N = 4` and `k = 4` writes: `size` is still 0
(not `min(4,4) = 4`) and `full()` is `false` (not `true`), because `write`
never increments `size`. -/
theorem C2_size_not_min_after_writes :
    ((CircularBuffer.construct 4 4).writeSeq [1, 2, 3, 4]).size = 0 ∧
    ((CircularBuffer.construct 4 4).writeSeq [1, 2, 3, 4]).size ≠ 4 ∧
    ((CircularBuffer.construct 4 4).writeSeq [1, 2, 3, 4]).full 4 = false := by
  decide

/-- C7: in the source as written, the write path updates only `i` and never
`size`, so after any sequence of writes into a freshly constructed ring the
`size` field is still 0 and `full()` (which tests `size >= BUF_SIZE`) never
returns true, for any positive `BUF_SIZE`. -/
theorem C7_size_stays_zero (BUF_SIZE capacity : Nat) (hN : 0 < BUF_SIZE)
    (xs : List Nat) :
    ((CircularBuffer.construct BUF_SIZE capacity).writeSeq xs).size = 0 ∧
    ((CircularBuffer.construct BUF_SIZE capacity).writeSeq xs).full BUF_SIZE
      = false := by
  have hsize : ((CircularBuffer.construct BUF_SIZE capacity).writeSeq xs).size
      = 0 := by
    rw [CircularBuffer.writeSeq_size]; rfl
  refine ⟨hsize, ?_⟩
  simp only [CircularBuffer.full, hsize, decide_eq_false_iff_not]
  omega

/-- Witness for C7 at `BUF_SIZE = capacity = 4` and five writes. -/
theorem C7_size_stays_zero_witness :
    ((CircularBuffer.construct 4 4).writeSeq [1, 2, 3, 4, 5]).size = 0 ∧
    ((CircularBuffer.construct 4 4).writeSeq [1, 2, 3, 4, 5]).full 4
      = false :=
  C7_size_stays_zero 4 4 (by decide) [1, 2, 3, 4, 5]

/-- C6: `clear()` sets `size` to 0 and leaves `i`, the stored bytes and the
capacity unchanged; concretely, writing 6 values into a ring of capacity 4,
then `clear()`, then writing 70 and 80 puts the two new values into
physical slots 2 and 3 (continuing from the preserved `i = 2`), while
slots 0 and 1 keep the values 50 and 60 from before the clear. -/
theorem C6_clear_preserves_wrap :
    (∀ b : CircularBuffer,
      b.clear.size = 0 ∧ b.clear.i = b.i ∧ b.clear.buffer = b.buffer ∧
      b.clear.capacity = b.capacity) ∧
    ((CircularBuffer.construct 4 4).writeSeq [10, 20, 30, 40, 50, 60]).clear.i
        = 2 ∧
    (((CircularBuffer.construct 4 4).writeSeq
        [10, 20, 30, 40, 50, 60]).clear.writeSeq [70, 80]).buffer
      = [50, 60, 70, 80] := by
  refine ⟨fun b => ⟨rfl, rfl, rfl, rfl⟩, by decide, by decide⟩

/-- C10: `write(x)` modifies only the storage slot at the current index `i`
(besides `i` itself): the `capacity` and `size` fields, the storage length,
and every slot other than `i` are unchanged, and slot `i` (when in range)
receives the written byte. -/
theorem C10_write_frame_effect (b : CircularBuffer) (x k : Nat) :
    (b.write x).capacity = b.capacity ∧
    (b.write x).size = b.size ∧
    (b.write x).buffer.length = b.buffer.length ∧
    (k ≠ b.i → (b.write x).buffer[k]? = b.buffer[k]?) ∧
    (b.i < b.buffer.length → (b.write x).buffer[b.i]? = some (x % 256)) := by
  refine ⟨rfl, rfl, by simp [CircularBuffer.write], ?_, ?_⟩
  · intro hk
    simp [CircularBuffer.write, List.getElem?_set_ne (fun h => hk h.symm)]
  · intro hi
    simp [CircularBuffer.write, List.getElem?_set_self, hi]

/-- Witness for C10: ring with contents `[5, 6, 7]` at `i = 1`; writing 9
leaves slot 0 untouched and stores the byte at slot 1. -/
theorem C10_write_frame_effect_witness :
    ((⟨[5, 6, 7], 1, 0, 3⟩ : CircularBuffer).write 9).capacity = 3 ∧
    ((⟨[5, 6, 7], 1, 0, 3⟩ : CircularBuffer).write 9).size = 0 ∧
    ((⟨[5, 6, 7], 1, 0, 3⟩ : CircularBuffer).write 9).buffer.length = 3 ∧
    ((⟨[5, 6, 7], 1, 0, 3⟩ : CircularBuffer).write 9).buffer[0]?
      = (⟨[5, 6, 7], 1, 0, 3⟩ : CircularBuffer).buffer[0]? ∧
    ((⟨[5, 6, 7], 1, 0, 3⟩ : CircularBuffer).write 9).buffer[1]? = some 9 := by
  obtain ⟨h1, h2, h3, h4, h5⟩ :=
    C10_write_frame_effect (⟨[5, 6, 7], 1, 0, 3⟩ : CircularBuffer) 9 0
  exact ⟨h1, h2, h3, h4 (by decide), by simpa using h5 (by decide)⟩

@[simp] theorem isrSeq_nil (BUF_SIZE : Nat) (s : VisState) :
    isrSeq BUF_SIZE [] s = s := rfl

@[simp] theorem isrSeq_cons (BUF_SIZE y : Nat) (ys : List Nat) (s : VisState) :
    isrSeq BUF_SIZE (y :: ys) s = isrSeq BUF_SIZE ys (ISR_ADC BUF_SIZE y s) :=
  rfl

/-- With the handoff flag raised, an interrupt reduces to the ring write:
the `!processing && ...` guard is false, so no promotion happens. -/
theorem ISR_ADC_busy (BUF_SIZE x : Nat) (s : VisState)
    (hb : s.processing = true) :
    ISR_ADC BUF_SIZE x s
      = s.setRing s.capt_buf ((s.get s.capt_buf).write x) := by
  simp [ISR_ADC, hb]

/-- While the handoff flag stays raised, any interrupt sequence leaves the
flag and both aliases unchanged and never touches the ring behind
`proc_buf` (when the aliases are distinct). -/
theorem isrSeq_busy_invariant (BUF_SIZE : Nat) (samples : List Nat)
    (s : VisState) (hb : s.processing = true) :
    (isrSeq BUF_SIZE samples s).processing = true ∧
    (isrSeq BUF_SIZE samples s).capt_buf = s.capt_buf ∧
    (isrSeq BUF_SIZE samples s).proc_buf = s.proc_buf ∧
    (s.capt_buf ≠ s.proc_buf →
      (isrSeq BUF_SIZE samples s).get s.proc_buf = s.get s.proc_buf) := by
  induction samples generalizing s with
  | nil => exact ⟨hb, rfl, rfl, fun _ => rfl⟩
  | cons y ys ih =>
    have hstep := ISR_ADC_busy BUF_SIZE y s hb
    have hbt : (ISR_ADC BUF_SIZE y s).processing = true := by
      rw [hstep]; simpa using hb
    obtain ⟨h1, h2, h3, h4⟩ := ih (ISR_ADC BUF_SIZE y s) hbt
    have hcapt : (ISR_ADC BUF_SIZE y s).capt_buf = s.capt_buf := by
      rw [hstep]; simp
    have hproc : (ISR_ADC BUF_SIZE y s).proc_buf = s.proc_buf := by
      rw [hstep]; simp
    refine ⟨by simpa using h1, by rw [isrSeq_cons, h2, hcapt],
      by rw [isrSeq_cons, h3, hproc], fun hne => ?_⟩
    rw [isrSeq_cons]
    have h4' := h4 (by rw [hcapt, hproc]; exact hne)
    rw [hproc] at h4'
    rw [h4', hstep, VisState.get_setRing_other _ _ _ _ (Ne.symm hne)]

/-- C3: the ISR raises the handoff flag exactly when `processing` was false
and, after the sample is written, `capt_buf->full()` holds; whenever the
flag transitions false to true in an invocation, the same invocation swaps
`capt_buf` and `proc_buf`; and in every reachable state with the flag
raised the two aliases differ, so no observer of `busy = true` sees
`capt = proc`. -/
theorem C3_promotion_invariant (BUF_SIZE x : Nat) (s : VisState) :
    (((ISR_ADC BUF_SIZE x s).processing = true ∧ s.processing = false) ↔
      (s.processing = false ∧
        ((s.get s.capt_buf).write x).full BUF_SIZE = true)) ∧
    (s.processing = false → (ISR_ADC BUF_SIZE x s).processing = true →
      (ISR_ADC BUF_SIZE x s).capt_buf = s.proc_buf ∧
      (ISR_ADC BUF_SIZE x s).proc_buf = s.capt_buf) ∧
    (Reachable BUF_SIZE s → s.processing = true →
      s.capt_buf ≠ s.proc_buf) := by
  refine ⟨?_, ?_, fun hr _ => reachable_capt_ne_proc hr⟩ <;>
    cases hp : s.processing <;>
      cases hf : ((s.get s.capt_buf).write x).full BUF_SIZE <;>
        simp [ISR_ADC, hp, hf]

/-- Witness for C3: a one-slot ring with `size = 1` is full, so an
interrupt on a non-busy state promotes and swaps the aliases; and the state
reached by one interrupt from `setup()` with `BUF_SIZE = 0` (whose rings
are always full) has the flag raised with distinct aliases. -/
theorem C3_promotion_invariant_witness :
    ((ISR_ADC 1 7 (⟨⟨[0], 0, 1, 1⟩, ⟨[0], 0, 0, 1⟩, Ref.ping, Ref.pong,
        false⟩ : VisState)).capt_buf = Ref.pong ∧
     (ISR_ADC 1 7 (⟨⟨[0], 0, 1, 1⟩, ⟨[0], 0, 0, 1⟩, Ref.ping, Ref.pong,
        false⟩ : VisState)).proc_buf = Ref.ping) ∧
    (ISR_ADC 0 5 (visSetup 0)).processing = true ∧
    (ISR_ADC 0 5 (visSetup 0)).capt_buf ≠ (ISR_ADC 0 5 (visSetup 0)).proc_buf
    := by
  refine ⟨?_, by decide, ?_⟩
  · obtain ⟨-, h2, -⟩ := C3_promotion_invariant 1 7
      (⟨⟨[0], 0, 1, 1⟩, ⟨[0], 0, 0, 1⟩, Ref.ping, Ref.pong, false⟩ : VisState)
    exact h2 rfl (by decide)
  · obtain ⟨-, -, h3⟩ :=
      C3_promotion_invariant 0 5 (ISR_ADC 0 5 (visSetup 0))
    exact h3 (Reachable.isr 5 Reachable.init) (by decide)

/-- C4: the claim asserts that each `loop()` iteration ends by calling
`proc->clear()` and setting `busy = false`.  The source's `loop()` body
contains neither statement: evaluating one iteration on a promoted state
whose `proc` ring has `size = 3` leaves the flag raised and the `size`
field at 3 (so `clear()` was not invoked), and indeed returns the shared
state unchanged — the claimed flag-clear never happens, which stalls every
further frame. -/
theorem C4_loop_never_clears_busy :
    (loopStep (⟨⟨[0], 0, 0, 1⟩, ⟨[7], 0, 3, 1⟩, Ref.ping, Ref.pong,
        true⟩ : VisState)).processing = true ∧
    ((loopStep (⟨⟨[0], 0, 0, 1⟩, ⟨[7], 0, 3, 1⟩, Ref.ping, Ref.pong,
        true⟩ : VisState)).get Ref.pong).size = 3 ∧
    loopStep (⟨⟨[0], 0, 0, 1⟩, ⟨[7], 0, 3, 1⟩, Ref.ping, Ref.pong,
        true⟩ : VisState)
      = (⟨⟨[0], 0, 0, 1⟩, ⟨[7], 0, 3, 1⟩, Ref.ping, Ref.pong,
        true⟩ : VisState) := by
  exact ⟨rfl, rfl, rfl⟩

/-- C5: if the flag is already raised when an interrupt arrives, no
rotation occurs: the aliases are unchanged, the flag stays true, the sample
is written into the same `capt` ring, and (the aliases being distinct, as
in every reachable state) the `proc` ring is untouched — over a whole
sequence of interrupts its contents stay bit-identical to their value at
promotion time. -/
theorem C5_no_rotate_while_busy (BUF_SIZE x : Nat) (s : VisState)
    (hb : s.processing = true) :
    (ISR_ADC BUF_SIZE x s).capt_buf = s.capt_buf ∧
    (ISR_ADC BUF_SIZE x s).proc_buf = s.proc_buf ∧
    (ISR_ADC BUF_SIZE x s).processing = true ∧
    (ISR_ADC BUF_SIZE x s).get s.capt_buf = (s.get s.capt_buf).write x ∧
    (s.capt_buf ≠ s.proc_buf →
      (ISR_ADC BUF_SIZE x s).get s.proc_buf = s.get s.proc_buf) ∧
    (∀ samples : List Nat, s.capt_buf ≠ s.proc_buf →
      (isrSeq BUF_SIZE samples s).get s.proc_buf = s.get s.proc_buf) := by
  have hstep := ISR_ADC_busy BUF_SIZE x s hb
  refine ⟨by rw [hstep]; simp, by rw [hstep]; simp,
    by rw [hstep]; simpa using hb, by rw [hstep]; simp, fun hne => ?_,
    fun samples hne => (isrSeq_busy_invariant BUF_SIZE samples s hb).2.2.2 hne⟩
  rw [hstep, VisState.get_setRing_other _ _ _ _ (Ne.symm hne)]

/-- Witness for C5: a busy state with `capt = ping`, `proc = pong`; one
interrupt and a three-interrupt burst leave `pong` untouched. -/
theorem C5_no_rotate_while_busy_witness :
    (ISR_ADC 2 9 (⟨⟨[0, 0], 0, 0, 2⟩, ⟨[1, 2], 0, 2, 2⟩, Ref.ping, Ref.pong,
        true⟩ : VisState)).capt_buf = Ref.ping ∧
    (ISR_ADC 2 9 (⟨⟨[0, 0], 0, 0, 2⟩, ⟨[1, 2], 0, 2, 2⟩, Ref.ping, Ref.pong,
        true⟩ : VisState)).proc_buf = Ref.pong ∧
    (ISR_ADC 2 9 (⟨⟨[0, 0], 0, 0, 2⟩, ⟨[1, 2], 0, 2, 2⟩, Ref.ping, Ref.pong,
        true⟩ : VisState)).processing = true ∧
    (isrSeq 2 [3, 4, 5] (⟨⟨[0, 0], 0, 0, 2⟩, ⟨[1, 2], 0, 2, 2⟩, Ref.ping,
        Ref.pong, true⟩ : VisState)).get Ref.pong
      = (⟨[1, 2], 0, 2, 2⟩ : CircularBuffer) := by
  obtain ⟨h1, h2, h3, -, -, h6⟩ := C5_no_rotate_while_busy 2 9
    (⟨⟨[0, 0], 0, 0, 2⟩, ⟨[1, 2], 0, 2, 2⟩, Ref.ping, Ref.pong,
      true⟩ : VisState) rfl
  exact ⟨h1, h2, h3, h6 [3, 4, 5] (by decide)⟩

/-- C8: the `#if` chain realizes exactly the claimed map
`{4 → 5, 8 → 7, 16 → 8, 32 → 9, 64 → 9, 128 → 9}` with `#error` otherwise,
and the typedef and ISR read the claimed storage width and register order
from the resulting bit width.  But the chain tests the misspelled macro
`ADC_PRESCALAR`, which is never defined and so evaluates to 0, while the
source defines `ADC_PRESCALER = 16`: the `#error` branch is taken and the
build fails even though the configured prescaler is a valid one — the
width is not in fact a function of the configured prescaler. -/
theorem C8_prescaler_width_build_error :
    (adcBitsChain 4 = some 5 ∧ adcBitsChain 8 = some 7 ∧
     adcBitsChain 16 = some 8 ∧ adcBitsChain 32 = some 9 ∧
     adcBitsChain 64 = some 9 ∧ adcBitsChain 128 = some 9 ∧
     adcBitsChain 2 = none ∧ adcBitsChain 0 = none) ∧
    (bytesPerSample 8 = 1 ∧ readOrderOf 8 = ReadOrder.highOnly ∧
     bytesPerSample 9 = 2 ∧ readOrderOf 9 = ReadOrder.lowThenHigh) ∧
    (ADC_PRESCALER = 16 ∧ adcBitsChain ADC_PRESCALAR = none) := by
  decide

/-- C9: the claim asserts the first conversion is triggered only after all
sampler configuration and after global interrupts are enabled, as the last
step.  In `setup_trace` as the source performs it, the first-conversion
trigger sits at position 5 — before the completion-interrupt enable (6),
the free-run selection (7), the prescaler bits (8) and `sei()` (11) — and
the last event is `sei()`, not the conversion trigger.  (The source's own
TODO notes these statements "should most likely be moved to the end".) -/
theorem C9_first_conversion_not_last :
    setup_trace.indexOf InitEvent.adcStartFirst = 5 ∧
    setup_trace.indexOf InitEvent.adcIntEnable = 6 ∧
    setup_trace.indexOf InitEvent.adcFreeRun = 7 ∧
    setup_trace.indexOf InitEvent.adcPrescalerBits = 8 ∧
    setup_trace.indexOf InitEvent.seiEnable = 11 ∧
    setup_trace.getLast? = some InitEvent.seiEnable ∧
    setup_trace.getLast? ≠ some InitEvent.adcStartFirst := by
  decide

end Visualizer
